import Mathlib

/-
Shallow embedding of the pymath3d geometry kernel, consisting of
math3d/vector.py (class Vector) and math3d/geometry/line.py (class Line).

Modelling conventions:
- Python float arithmetic is modelled by exact rational arithmetic (Rat);
  square roots and the arc cosine live in Real.
- Dynamically typed Python values reaching the Vector constructor and the
  arithmetic operators are modelled by the inductive type PyVal.
- A Python statement that raises is modelled with Except PyErr; a method
  that can raise returns Except PyErr of its result type.
- The shape predicates of math3d/utils.py (isNumType, isNumTypes,
  isSequence, isThreeSequence) are not part of the supplied sources; they
  are modelled from the specification, which describes the accepted
  constructor inputs as scalars, 2- or 3-element ordered sequences of
  numbers, or another Vector.
-/

namespace M3d

/-- Errors raised by the embedded code. The constructor vectorError stands
for the exception class Vector.Error raised via self.Error in vector.py;
typeError stands for a Python TypeError raised by operator dispatch on
unsupported operand types; nameError stands for a Python NameError caused
by a reference to an undefined global name; exceptionError stands for the
bare Exception raised by the Line constructor on unrecognized keyword
arguments. -/
inductive PyErr where
  | vectorError
  | typeError
  | nameError
  | exceptionError
deriving DecidableEq

/-- The state of a Vector instance: the three components of the numpy
array self.data (Python floats, modelled as rationals) and the
self.isPosition flag, which the source stores as the integer 1 or 0 and
which is modelled as a Bool (true standing for 1, the default). -/
structure Vector where
  x : ℚ
  y : ℚ
  z : ℚ
  isPosition : Bool
deriving DecidableEq

/-- A dynamically typed Python value as it can reach the Vector
constructor or an arithmetic operator: a number, a Vector instance, a
numeric ordered sequence (list, tuple or numpy array; modelled from the
spec, which accepts 2- or 3-element ordered sequences of numbers), or any
other object (a string, a bound method, ...), for which the utils shape
predicates and the type test against Vector are all false. -/
inductive PyVal where
  | num (q : ℚ)
  | vec (v : Vector)
  | seqv (xs : List ℚ)
  | other
deriving DecidableEq

/-- Test used by the non-Vector branches of the arithmetic operators:
true exactly on the vec constructor, mirroring the Python check
type(other) == Vector. -/
def PyVal.isVec : PyVal → Bool
  | PyVal.vec _ => true
  | _ => false

/-- The Vector constructor, vector.py lines 48 to 72, dispatching on the
shape of the positional arguments exactly as the source if/elif chain
does:
- three numeric arguments give the three components;
- two numeric arguments give components with z defaulted to 0;
- a single argument that is a 3-sequence gives its elements, a 2-sequence
  gives its elements with z = 0, a Vector copies the component data of the
  argument (only the array self.data: the astype call copies no tag), and
  any other single argument raises Vector.Error;
- every remaining shape (no arguments, four or more arguments, two or
  three arguments that are not all numeric) falls to the final else branch
  and silently produces the data [0, 0, 0].
After the data is set, self.isPosition is set to 1, overridden by the
optional position keyword argument (modelled as Option Bool, none when
the keyword is absent). -/
def vinit (args : List PyVal) (position : Option Bool) : Except PyErr Vector :=
  let tag := position.getD true
  match args with
  | [PyVal.num a, PyVal.num b, PyVal.num c] => Except.ok ⟨a, b, c, tag⟩
  | [PyVal.num a, PyVal.num b] => Except.ok ⟨a, b, 0, tag⟩
  | [arg] =>
    match arg with
    | PyVal.seqv [a, b, c] => Except.ok ⟨a, b, c, tag⟩
    | PyVal.seqv [a, b] => Except.ok ⟨a, b, 0, tag⟩
    | PyVal.vec v => Except.ok ⟨v.x, v.y, v.z, tag⟩
    | _ => Except.error PyErr.vectorError
  | _ => Except.ok ⟨0, 0, 0, tag⟩

/-- Accessor isPos of vector.py, returning the position flag. -/
def Vector.isPos (v : Vector) : Bool :=
  v.isPosition

/-- Method length2 of vector.py: np.dot(self.data, self.data), the squared
Euclidean norm. -/
def Vector.length2 (v : Vector) : ℚ :=
  v.x * v.x + v.y * v.y + v.z * v.z

/-- The Vector branch of the operator mul in vector.py: the inner
product np.dot(self.data, other.data). -/
def Vector.dot (a b : Vector) : ℚ :=
  a.x * b.x + a.y * b.y + a.z * b.z

/-- The Vector branch of the subtraction operator in vector.py: a fresh
Vector built from np.subtract of the two data arrays; the fresh Vector is
built through the 3-sequence branch of the constructor and therefore
carries the default position tag. -/
def vsubV (a b : Vector) : Vector :=
  ⟨a.x - b.x, a.y - b.y, a.z - b.z, true⟩

/-- The Vector branch of the addition operator in vector.py: a fresh
Vector built from the sum of the two data arrays, with the default
position tag. -/
def vaddV (a b : Vector) : Vector :=
  ⟨a.x + b.x, a.y + b.y, a.z + b.z, true⟩

/-- Method cross of vector.py: a fresh Vector built from
np.cross(self.data, other.data), with the default position tag. -/
def Vector.cross (a b : Vector) : Vector :=
  ⟨a.y * b.z - a.z * b.y, a.z * b.x - a.x * b.z, a.x * b.y - a.y * b.x, true⟩

/-- The scalar branch of the operators mul and rmul in vector.py: a fresh
Vector scaling the data array by the scalar, with the default position
tag. -/
def Vector.smul (t : ℚ) (v : Vector) : Vector :=
  ⟨t * v.x, t * v.y, t * v.z, true⟩

/-- The addition operator of vector.py, lines 259 to 264, on an arbitrary
operand: the Vector branch returns the fresh sum, any other operand hits
the else branch raising Vector.Error. -/
def vaddPy (a : Vector) (o : PyVal) : Except PyErr Vector :=
  match o with
  | PyVal.vec b => Except.ok (vaddV a b)
  | _ => Except.error PyErr.vectorError

/-- The in-place addition operator of vector.py, lines 266 to 272: the
Vector branch updates the data array in place (the receiver keeps its own
position tag) and returns the receiver; any other operand raises
Vector.Error before any mutation. -/
def viaddPy (a : Vector) (o : PyVal) : Except PyErr Vector :=
  match o with
  | PyVal.vec b => Except.ok ⟨a.x + b.x, a.y + b.y, a.z + b.z, a.isPosition⟩
  | _ => Except.error PyErr.vectorError

/-- The subtraction operator of vector.py, lines 219 to 221: the body is
a single if with no else, so a non-Vector operand falls off the end of
the function and the expression evaluates to None without any error.
The result type Option Vector models the possible None. -/
def vsubPy (a : Vector) (o : PyVal) : Except PyErr (Option Vector) :=
  match o with
  | PyVal.vec b => Except.ok (some (vsubV a b))
  | _ => Except.ok none

/-- The in-place subtraction operator of vector.py, lines 223 to 226: the
guarded update is skipped for a non-Vector operand and the receiver is
returned unchanged, again without any error. -/
def visubPy (a : Vector) (o : PyVal) : Except PyErr Vector :=
  match o with
  | PyVal.vec b => Except.ok ⟨a.x - b.x, a.y - b.y, a.z - b.z, a.isPosition⟩
  | _ => Except.ok a

/-- The equality operator of vector.py, lines 130 to 134. The Vector
branch evaluates np.sum of the squared differences and then the
expression utils.eps with a leading underscore on eps; vector.py imports
only the bare name of that constant from math3d.utils and never binds the
module name utils, so the lookup of the global name utils raises a Python
NameError for every Vector operand. A non-Vector operand takes the else
branch, raising Vector.Error. -/
def veqPy (_a : Vector) (o : PyVal) : Except PyErr Bool :=
  match o with
  | PyVal.vec _ => Except.error PyErr.nameError
  | _ => Except.error PyErr.vectorError

/-- Method length of vector.py: the Euclidean norm, the real square root
of length2. -/
noncomputable def Vector.length (v : Vector) : ℝ :=
  Real.sqrt ((v.length2 : ℚ) : ℝ)

/-- The clamping performed by the method angle of vector.py, lines 151 to
154: a computed cosine above 1 is replaced by 1, one below -1 by -1, any
other value is kept. -/
noncomputable def clampCos (c : ℝ) : ℝ :=
  if 1 < c then 1
  else if c < -1 then -1
  else c

/-- The raw cosine computed by the method angle of vector.py, line 150:
the inner product divided by the product of the two lengths. -/
noncomputable def cosThetaRaw (a b : Vector) : ℝ :=
  ((a.dot b : ℚ) : ℝ) / (a.length * b.length)

/-- Method angle of vector.py, lines 147 to 155: the arc cosine of the
clamped cosine. -/
noncomputable def Vector.angle (a b : Vector) : ℝ :=
  Real.arccos (clampCos (cosThetaRaw a b))

/-- Method normalize of vector.py, lines 179 to 183, expressed on the
data array: let l be the length; when l differs from 1.0 the data array
is replaced by data divided by l, with no guard against l being zero;
when l equals 1.0 exactly, the data is left untouched. There is no raise
statement in the method. -/
noncomputable def Vector.normalizeData (v : Vector) : ℝ × ℝ × ℝ :=
  let l : ℝ := v.length
  if l = 1 then (((v.x : ℚ) : ℝ), ((v.y : ℚ) : ℝ), ((v.z : ℚ) : ℝ))
  else (((v.x : ℚ) : ℝ) / l, ((v.y : ℚ) : ℝ) / l, ((v.z : ℚ) : ℝ) / l)

/-- The value stored in the attribute ud by the Line constructor, line 56
of line.py: the expression self.d.normalized names the method normalized
of the Vector class of vector.py, which is a plain method and not a
property, so the attribute lookup yields the bound method object without
calling it. The single constructor methodRef records the receiver the
method is bound to. -/
inductive UdCache where
  | methodRef (d : Vector)
deriving DecidableEq

/-- The state of a Line instance: the point self.p, the direction self.d
and the cached attribute self.ud. -/
structure Line where
  p : Vector
  d : Vector
  ud : UdCache
deriving DecidableEq

/-- The keyword argument shapes dispatched by the Line constructor of
line.py, lines 39 to 54, one constructor per branch of the elif chain in
the same order, plus a final constructor for every unrecognized keyword
combination. -/
inductive LineArgs where
  | pointDirection (e0 e1 : PyVal)
  | pdPair (e0 e1 : PyVal)
  | pointAndDirection (point direction : PyVal)
  | twoPoints (point0 point1 : PyVal)
  | unrecognized

/-- The Line constructor of line.py, lines 24 to 56. Each Vector built
from a keyword argument can itself raise, which propagates. The two-point
branch derives the direction as Vector(point1) - self.p through the
Vector branch of the subtraction operator. Unrecognized keyword
combinations raise the bare Exception. Finally the attribute ud receives
the uncalled bound method self.d.normalized. -/
def lineInit (a : LineArgs) : Except PyErr Line :=
  match a with
  | LineArgs.pointDirection e0 e1 => do
    let p ← vinit [e0] none
    let d ← vinit [e1] none
    Except.ok ⟨p, d, UdCache.methodRef d⟩
  | LineArgs.pdPair e0 e1 => do
    let p ← vinit [e0] none
    let d ← vinit [e1] none
    Except.ok ⟨p, d, UdCache.methodRef d⟩
  | LineArgs.pointAndDirection pt dir => do
    let p ← vinit [pt] none
    let d ← vinit [dir] none
    Except.ok ⟨p, d, UdCache.methodRef d⟩
  | LineArgs.twoPoints p0 p1 => do
    let p ← vinit [p0] none
    let v1 ← vinit [p1] none
    let d := vsubV v1 p
    Except.ok ⟨p, d, UdCache.methodRef d⟩
  | LineArgs.unrecognized => Except.error PyErr.exceptionError

/-- Property point of line.py: a fresh Vector copied from self.p through
the Vector constructor. -/
def Line.point (L : Line) : Except PyErr Vector :=
  vinit [PyVal.vec L.p] none

/-- Property direction of line.py: a fresh Vector copied from self.d. -/
def Line.direction (L : Line) : Except PyErr Vector :=
  vinit [PyVal.vec L.d] none

/-- Property unit direction of line.py, lines 66 to 68: it evaluates
Vector(self.ud), but self.ud holds a bound method object, which is
neither a numeric sequence nor a Vector, so the constructor takes its
single-argument else branch and raises Vector.Error. -/
def Line.unit_direction (L : Line) : Except PyErr Vector :=
  match L.ud with
  | UdCache.methodRef _ => vinit [PyVal.other] none

/-- Method nearest points of line.py, lines 95 to 111. The first
expression evaluated is the product self.ud * line.ud inside the parallel
check; both attributes hold bound method objects, for which neither
operand type provides a multiplication, so Python raises TypeError before
any geometric computation can take place. -/
def Line.nearest_points (self other : Line) : Except PyErr (Vector × Vector) :=
  match self.ud, other.ud with
  | UdCache.methodRef _, UdCache.methodRef _ => Except.error PyErr.typeError

/-- Method projected line of line.py, lines 76 to 93. As in nearest
points, the parallel check multiplies the two bound method objects held
by the ud attributes, which raises TypeError on every call. -/
def Line.projected_line (self other : Line) : Except PyErr Vector :=
  match self.ud, other.ud with
  | UdCache.methodRef _, UdCache.methodRef _ => Except.error PyErr.typeError

/-- The closed-form nearest-point formula that the body of nearest points
in line.py spells out after the parallel check (lines 104 to 111),
evaluated on given points and direction vectors: n1 is d1 cross (d2 cross
d1), n2 is d2 cross (d1 cross d2), and each returned point offsets the
respective base point along its direction by the projected parameter.
The formula is stated on arbitrary direction vectors; it is invariant
under positive rescaling of each direction, so using unit directions as
the source intends changes nothing. -/
def nearestPointsFormula (p1 d1 p2 d2 : Vector) : Vector × Vector :=
  let n1 := d1.cross (d2.cross d1)
  let n2 := d2.cross (d1.cross d2)
  let t1 := (vsubV p2 p1).dot n2 / d1.dot n2
  let t2 := (vsubV p1 p2).dot n1 / d2.dot n1
  (vaddV p1 (Vector.smul t1 d1), vaddV p2 (Vector.smul t2 d2))

/-- The squared length is a sum of squares, hence never negative. -/
theorem length2_nonneg (v : Vector) : 0 ≤ v.length2 := by
  unfold Vector.length2
  linarith [mul_self_nonneg v.x, mul_self_nonneg v.y, mul_self_nonneg v.z]

/-- A vector with non-zero squared length has positive real length. -/
theorem length_pos_of_length2_ne_zero (v : Vector) (h : v.length2 ≠ 0) :
    0 < v.length := by
  unfold Vector.length
  apply Real.sqrt_pos.mpr
  exact_mod_cast lt_of_le_of_ne (length2_nonneg v) (Ne.symm h)

/-- The clamped cosine never drops below -1. -/
theorem neg_one_le_clampCos (c : ℝ) : -1 ≤ clampCos c := by
  unfold clampCos
  split_ifs with h1 h2
  · norm_num
  · norm_num
  · linarith [not_lt.mp h2]

/-- The clamped cosine never exceeds 1. -/
theorem clampCos_le_one (c : ℝ) : clampCos c ≤ 1 := by
  unfold clampCos
  split_ifs with h1 h2
  · norm_num
  · norm_num
  · exact not_lt.mp h1

/-- Any cosine at or above 1 is clamped so that the arc cosine returns
exactly 0. -/
theorem arccos_clampCos_of_one_le (c : ℝ) (hc : 1 ≤ c) :
    Real.arccos (clampCos c) = 0 := by
  unfold clampCos
  split_ifs with h1 h2
  · exact Real.arccos_one
  · linarith
  · have : c = 1 := le_antisymm (not_lt.mp h1) hc
    rw [this]
    exact Real.arccos_one

/-- Claim C5: for every pair of non-zero vectors, the angle method is
well defined: both length factors of the denominator are positive, the
cosine argument is clamped into the interval from -1 to 1 before the arc
cosine is taken, the angle is exactly the arc cosine of the clamped
cosine and lies between 0 and pi, and any computed cosine at or above 1
(including a floating-point overshoot such as 1.0000000002) yields the
angle 0. -/
theorem C5_angle_clamped (a b : Vector)
    (ha : a.length2 ≠ 0) (hb : b.length2 ≠ 0) :
    0 < a.length ∧ 0 < b.length ∧
    -1 ≤ clampCos (cosThetaRaw a b) ∧ clampCos (cosThetaRaw a b) ≤ 1 ∧
    a.angle b = Real.arccos (clampCos (cosThetaRaw a b)) ∧
    0 ≤ a.angle b ∧ a.angle b ≤ Real.pi ∧
    (∀ c : ℝ, 1 ≤ c → Real.arccos (clampCos c) = 0) := by
  refine ⟨length_pos_of_length2_ne_zero a ha, length_pos_of_length2_ne_zero b hb,
    neg_one_le_clampCos _, clampCos_le_one _, rfl,
    Real.arccos_nonneg _, Real.arccos_le_pi _, ?_⟩
  intro c hc
  exact arccos_clampCos_of_one_le c hc

/-- Witness for claim C5 at the unit vectors e0 and e1. -/
theorem C5_angle_clamped_witness :
    (Vector.mk 1 0 0 true).length2 ≠ 0 ∧ (Vector.mk 0 1 0 true).length2 ≠ 0 ∧
    (0 < (Vector.mk 1 0 0 true).length ∧ 0 < (Vector.mk 0 1 0 true).length ∧
     -1 ≤ clampCos (cosThetaRaw (Vector.mk 1 0 0 true) (Vector.mk 0 1 0 true)) ∧
     clampCos (cosThetaRaw (Vector.mk 1 0 0 true) (Vector.mk 0 1 0 true)) ≤ 1 ∧
     (Vector.mk 1 0 0 true).angle (Vector.mk 0 1 0 true) =
       Real.arccos (clampCos (cosThetaRaw (Vector.mk 1 0 0 true) (Vector.mk 0 1 0 true))) ∧
     0 ≤ (Vector.mk 1 0 0 true).angle (Vector.mk 0 1 0 true) ∧
     (Vector.mk 1 0 0 true).angle (Vector.mk 0 1 0 true) ≤ Real.pi ∧
     (∀ c : ℝ, 1 ≤ c → Real.arccos (clampCos c) = 0)) :=
  ⟨by simp [Vector.length2], by simp [Vector.length2],
   C5_angle_clamped (Vector.mk 1 0 0 true) (Vector.mk 0 1 0 true)
     (by simp [Vector.length2]) (by simp [Vector.length2])⟩

/-- Claim C6: evaluating the equality operator on two equal vectors does
not return a boolean at all; the body of the operator dereferences the
unbound global name utils, so the comparison raises NameError for every
Vector operand instead of performing the approximate-equality test. -/
theorem C6_eq_raises :
    veqPy (Vector.mk 1 2 3 true) (PyVal.vec (Vector.mk 1 2 3 true)) =
      Except.error PyErr.nameError := rfl

/-- Counterexample to claim C7: subtracting the number 5 from a vector
does not fail; the subtraction operator silently evaluates to None, and
the in-place subtraction silently returns the receiver unchanged. -/
theorem C7_sub_nonvector_silent :
    vsubPy (Vector.mk 1 2 3 true) (PyVal.num 5) = Except.ok none ∧
    visubPy (Vector.mk 1 2 3 true) (PyVal.num 5) = Except.ok (Vector.mk 1 2 3 true) :=
  ⟨rfl, rfl⟩

/-- Claim C7 as amended: with a non-Vector operand, plain and in-place
addition raise Vector.Error leaving the receiver unchanged, while plain
subtraction silently returns None and in-place subtraction silently
returns the unchanged receiver; neither subtraction raises. -/
theorem C7_actual_behavior (a : Vector) (o : PyVal) (h : o.isVec = false) :
    vaddPy a o = Except.error PyErr.vectorError ∧
    viaddPy a o = Except.error PyErr.vectorError ∧
    vsubPy a o = Except.ok none ∧
    visubPy a o = Except.ok a := by
  cases o with
  | num q => exact ⟨rfl, rfl, rfl, rfl⟩
  | vec v => simp [PyVal.isVec] at h
  | seqv xs => exact ⟨rfl, rfl, rfl, rfl⟩
  | other => exact ⟨rfl, rfl, rfl, rfl⟩

/-- Witness for the amended claim C7 at the operand 5. -/
theorem C7_actual_behavior_witness :
    (PyVal.num 5).isVec = false ∧
    (vaddPy (Vector.mk 1 2 3 true) (PyVal.num 5) = Except.error PyErr.vectorError ∧
     viaddPy (Vector.mk 1 2 3 true) (PyVal.num 5) = Except.error PyErr.vectorError ∧
     vsubPy (Vector.mk 1 2 3 true) (PyVal.num 5) = Except.ok none ∧
     visubPy (Vector.mk 1 2 3 true) (PyVal.num 5) = Except.ok (Vector.mk 1 2 3 true)) :=
  ⟨rfl, C7_actual_behavior (Vector.mk 1 2 3 true) (PyVal.num 5) rfl⟩

/-- Counterexample to claim C8: constructing a Vector from zero arguments
does not raise; it silently produces the zero vector. -/
theorem C8_no_args_zero_vector :
    vinit [] none = Except.ok (Vector.mk 0 0 0 true) := rfl

/-- Claim C8 as amended: the accepted shapes construct the stated
vectors; a single argument that is neither a numeric 2- or 3-sequence
nor a Vector raises Vector.Error; every other unmatched shape (zero
arguments, four or more arguments, or several arguments that are not all
numeric) silently constructs the zero vector instead of raising. -/
theorem C8_actual_behavior (q1 q2 q3 : ℚ) (v : Vector) :
    vinit [PyVal.num q1, PyVal.num q2, PyVal.num q3] none = Except.ok ⟨q1, q2, q3, true⟩ ∧
    vinit [PyVal.num q1, PyVal.num q2] none = Except.ok ⟨q1, q2, 0, true⟩ ∧
    vinit [PyVal.seqv [q1, q2, q3]] none = Except.ok ⟨q1, q2, q3, true⟩ ∧
    vinit [PyVal.seqv [q1, q2]] none = Except.ok ⟨q1, q2, 0, true⟩ ∧
    vinit [PyVal.vec v] none = Except.ok ⟨v.x, v.y, v.z, true⟩ ∧
    vinit [PyVal.other] none = Except.error PyErr.vectorError ∧
    vinit [PyVal.num q1] none = Except.error PyErr.vectorError ∧
    vinit [] none = Except.ok ⟨0, 0, 0, true⟩ ∧
    vinit [PyVal.num q1, PyVal.num q2, PyVal.num q3, PyVal.num q3] none =
      Except.ok ⟨0, 0, 0, true⟩ ∧
    vinit [PyVal.other, PyVal.other, PyVal.other] none = Except.ok ⟨0, 0, 0, true⟩ :=
  ⟨rfl, rfl, rfl, rfl, rfl, rfl, rfl, rfl, rfl, rfl⟩

/-- Claim C9: for any two points, the two-point constructor form yields
exactly the same Line state (point, direction and cached attribute) as
the point-and-direction form with the direction taken to be the
difference of the points; in particular for the points (0,0,0) and
(1,0,0) against the direction (1,0,0). -/
theorem C9_two_point_form_agrees (p0 p1 : Vector) :
    lineInit (LineArgs.twoPoints (PyVal.vec p0) (PyVal.vec p1)) =
      lineInit (LineArgs.pointAndDirection (PyVal.vec p0) (PyVal.vec (vsubV p1 p0))) ∧
    lineInit (LineArgs.twoPoints (PyVal.seqv [0, 0, 0]) (PyVal.seqv [1, 0, 0])) =
      lineInit (LineArgs.pointAndDirection (PyVal.seqv [0, 0, 0]) (PyVal.seqv [1, 0, 0])) := by
  refine ⟨rfl, ?_⟩
  have h3 : vsubV ⟨1, 0, 0, true⟩ ⟨0, 0, 0, true⟩ = (⟨1, 0, 0, true⟩ : Vector) := by
    simp [vsubV]
  show Except.ok
      (⟨⟨0, 0, 0, true⟩, vsubV ⟨1, 0, 0, true⟩ ⟨0, 0, 0, true⟩,
        UdCache.methodRef (vsubV ⟨1, 0, 0, true⟩ ⟨0, 0, 0, true⟩)⟩ : Line) =
    Except.ok ⟨⟨0, 0, 0, true⟩, ⟨1, 0, 0, true⟩, UdCache.methodRef ⟨1, 0, 0, true⟩⟩
  rw [h3]

/-- Counterexample to claim C10: copy-constructing a free vector (the
position flag cleared) yields a vector with the flag set again; the copy
does not preserve the tag. -/
theorem C10_copy_resets_tag :
    vinit [PyVal.vec (Vector.mk 1 2 3 false)] none = Except.ok (Vector.mk 1 2 3 true) ∧
    (Vector.mk 1 2 3 false).isPos = false :=
  ⟨rfl, rfl⟩

/-- Claim C10 as amended: the position tag defaults to true, is settable
through the keyword, and affects no arithmetic; but copy-construction
copies only the component data and resets the tag to the default, so
copying a free vector yields a position vector. -/
theorem C10_actual_behavior (v w : Vector) (q1 q2 q3 : ℚ) :
    vinit [PyVal.num q1, PyVal.num q2, PyVal.num q3] none = Except.ok ⟨q1, q2, q3, true⟩ ∧
    vinit [PyVal.num q1, PyVal.num q2, PyVal.num q3] (some false) =
      Except.ok ⟨q1, q2, q3, false⟩ ∧
    vinit [PyVal.vec v] none = Except.ok ⟨v.x, v.y, v.z, true⟩ ∧
    vaddV v w = vaddV ⟨v.x, v.y, v.z, true⟩ ⟨w.x, w.y, w.z, false⟩ ∧
    vsubV v w = vsubV ⟨v.x, v.y, v.z, true⟩ ⟨w.x, w.y, w.z, false⟩ ∧
    v.dot w = Vector.dot ⟨v.x, v.y, v.z, true⟩ ⟨w.x, w.y, w.z, false⟩ :=
  ⟨rfl, rfl, rfl, rfl, rfl, rfl⟩

/-- Claim C1, evaluated at a concretely constructed line: the attribute
ud holds the uncalled bound method of the direction instead of the
normalized direction vector, and the unit-direction accessor consequently
raises Vector.Error instead of returning a unit-length copy. -/
theorem C1_ud_is_method_not_vector :
    ∃ L : Line,
      lineInit (LineArgs.pointAndDirection (PyVal.seqv [0, 0, 0]) (PyVal.seqv [1, 0, 0])) =
        Except.ok L ∧
      L.ud = UdCache.methodRef L.d ∧
      L.unit_direction = Except.error PyErr.vectorError :=
  ⟨⟨⟨0, 0, 0, true⟩, ⟨1, 0, 0, true⟩, UdCache.methodRef ⟨1, 0, 0, true⟩⟩, rfl, rfl, rfl⟩

/-- Claim C2, evaluated at two concrete skew, non-parallel lines: the
nearest-points method raises TypeError (multiplying the two bound method
objects held by the ud attributes) instead of returning a pair of
points. -/
theorem C2_nearest_points_raise :
    (do
      let l1 ← lineInit (LineArgs.pointAndDirection (PyVal.seqv [0, 0, 0]) (PyVal.seqv [1, 0, 0]))
      let l2 ← lineInit (LineArgs.pointAndDirection (PyVal.seqv [0, 0, 1]) (PyVal.seqv [0, 1, 0]))
      l1.nearest_points l2) = Except.error PyErr.typeError := rfl

/-- Claim C3, evaluated at two concrete parallel lines: the
projected-line method raises TypeError inside the parallel check, so the
degenerate branch returning the own point is never reached. -/
theorem C3_projected_line_raise :
    (do
      let l1 ← lineInit (LineArgs.pointAndDirection (PyVal.seqv [0, 0, 0]) (PyVal.seqv [1, 0, 0]))
      let l2 ← lineInit (LineArgs.pointAndDirection (PyVal.seqv [0, 1, 0]) (PyVal.seqv [1, 0, 0]))
      l1.projected_line l2) = Except.error PyErr.typeError := rfl

/-- Counterexample to claim C4: constructing a Line from a zero direction
vector does not raise anything; the constructor succeeds and stores the
zero direction. -/
theorem C4_zero_direction_line_ok :
    lineInit (LineArgs.pointAndDirection (PyVal.seqv [0, 0, 0]) (PyVal.seqv [0, 0, 0])) =
      Except.ok ⟨⟨0, 0, 0, true⟩, ⟨0, 0, 0, true⟩, UdCache.methodRef ⟨0, 0, 0, true⟩⟩ := rfl

/-- Claim C4 as amended: no degenerate-vector error exists in the code.
Constructing a Line with a zero direction succeeds, storing the zero
direction; the zero vector has length 0, and the normalize method takes
its division branch with that zero divisor (dividing every component by
zero) rather than raising. -/
theorem C4_actual_behavior :
    lineInit (LineArgs.pointAndDirection (PyVal.seqv [1, 2, 3]) (PyVal.seqv [0, 0, 0])) =
      Except.ok ⟨⟨1, 2, 3, true⟩, ⟨0, 0, 0, true⟩, UdCache.methodRef ⟨0, 0, 0, true⟩⟩ ∧
    (Vector.mk 0 0 0 true).length = 0 ∧
    (Vector.mk 0 0 0 true).normalizeData = ((0 : ℝ) / 0, (0 : ℝ) / 0, (0 : ℝ) / 0) := by
  refine ⟨rfl, ?_, ?_⟩
  · simp [Vector.length, Vector.length2]
  · simp [Vector.normalizeData, Vector.length, Vector.length2]

/-- The intended closed-form nearest-point computation (the formula the
source spells out below its unreachable parallel check) does satisfy the
perpendicularity property of claim C2: whenever the two denominators are
non-zero, the connecting segment of the two returned points is orthogonal
to both direction vectors. -/
theorem nearestPointsFormula_perp (p1 d1 p2 d2 : Vector)
    (h1 : d1.dot (d2.cross (d1.cross d2)) ≠ 0)
    (h2 : d2.dot (d1.cross (d2.cross d1)) ≠ 0) :
    (vsubV (nearestPointsFormula p1 d1 p2 d2).2 (nearestPointsFormula p1 d1 p2 d2).1).dot d1 = 0 ∧
    (vsubV (nearestPointsFormula p1 d1 p2 d2).2 (nearestPointsFormula p1 d1 p2 d2).1).dot d2 = 0 := by
  obtain ⟨a1, a2, a3, at1⟩ := p1
  obtain ⟨b1, b2, b3, bt⟩ := d1
  obtain ⟨c1, c2, c3, ct⟩ := p2
  obtain ⟨e1, e2, e3, et⟩ := d2
  simp only [nearestPointsFormula, Vector.cross, Vector.dot, vsubV, vaddV, Vector.smul] at *
  constructor <;> field_simp <;> ring

end M3d
